import Mathlib

/-!
Verification of the hierarchical graph description and static layout-rendering
pipeline of `cdk-shopify/generated-diagrams/generate_diagram.py`.

The repository's script is pure declaration against a diagram-construction
library; the library itself (the Graph Model, Builder/Scoping API, Layout
Adapter and Rendering Pipeline) is not part of the repository sources, so its
behaviour is modelled here from the specification's description of that core,
while the script's own three diagram declarations and its main guard are
embedded directly from the source.
-/

namespace DiagramSpec

/-- Modelled from the spec: the Graph Model's entities. A Node carries an
identity, a display label and an optional icon reference; a Cluster is a named
grouping owning an ordered list of child entities (nodes and nested clusters).
The rendering library providing these is not in the repository sources. -/
inductive Entity where
  | node (eid : String) (label : String) (icon : Option String)
  | cluster (eid : String) (children : List Entity)
deriving Repr

/-- The identity of an entity (node id or cluster name). -/
def Entity.entityId : Entity → String
  | .node i _ _ => i
  | .cluster i _ => i

/-- Modelled from the spec: optional edge attributes — label text, color and
line style. -/
structure EdgeAttr where
  label : Option String
  color : Option String
  style : Option String
deriving Repr, DecidableEq

/-- An edge declaration: ordered pair of endpoint identities plus attributes.
Edges hold non-owning references (lookup keys) into the node set. -/
structure EdgeDecl where
  src : String
  tgt : String
  attr : EdgeAttr
deriving Repr, DecidableEq

/-- The default (empty) edge attributes, for plain `a >> b` declarations. -/
def noAttr : EdgeAttr := ⟨none, none, none⟩

/-- Modelled from the spec: the construction-time error taxonomy relevant to
the Graph Model, plus the Sealed-state rejection of further mutation. -/
inductive Err where
  | DuplicateIdentity
  | UnknownEndpoint
  | SealedDocument
deriving Repr, DecidableEq

/-- A frame of the Builder's scope stack: the currently open cluster's name
and the ordered list of children finalized in it so far. -/
structure Frame where
  fid : String
  done : List Entity
deriving Repr

/-- Modelled from the spec: the Builder's state — finalized top-level entities,
the scope stack (top of stack at the head), the declared edge list, and the
Building/Sealed flag. -/
structure BuilderState where
  root : List Entity
  stack : List Frame
  edges : List EdgeDecl
  sealedDoc : Bool
deriving Repr

/-- The empty Building-state document. -/
def initState : BuilderState := ⟨[], [], [], false⟩

/-- The entities already finalized in the currently open scope (the top-of-stack
cluster, or the root graph when no cluster scope is open). -/
def currentScopeEntities (s : BuilderState) : List Entity :=
  match s.stack with
  | [] => s.root
  | f :: _ => f.done

/-- The identities already used in the currently open scope. -/
def currentScopeIds (s : BuilderState) : List String :=
  (currentScopeEntities s).map Entity.entityId

/-- Attach a finished entity to the currently open scope. -/
def attachEntity (e : Entity) (s : BuilderState) : BuilderState :=
  match s.stack with
  | [] => { s with root := s.root ++ [e] }
  | f :: rest => { s with stack := ⟨f.fid, f.done ++ [e]⟩ :: rest }

/-- Enter a cluster scope: push a fresh frame onto the scope stack. -/
def pushFrame (i : String) (s : BuilderState) : BuilderState :=
  { s with stack := ⟨i, []⟩ :: s.stack }

/-- Exit the innermost cluster scope: pop the top frame and attach the
finished cluster to the parent scope. -/
def popFrame (s : BuilderState) : BuilderState :=
  match s.stack with
  | [] => s
  | f :: rest => attachEntity (.cluster f.fid f.done) { s with stack := rest }

mutual

/-- All node identities declared inside one entity. -/
def entityNodeIds : Entity → List String
  | .node i _ _ => [i]
  | .cluster _ cs => entitiesNodeIds cs

/-- All node identities declared inside a list of entities, in order. -/
def entitiesNodeIds : List Entity → List String
  | [] => []
  | e :: es => entityNodeIds e ++ entitiesNodeIds es

end

/-- All node identities created anywhere in the document so far: the finalized
root entities plus the contents of every open scope frame. -/
def allNodeIds (s : BuilderState) : List String :=
  entitiesNodeIds s.root ++ (s.stack.map fun f => entitiesNodeIds f.done).flatten

/-- Modelled from the spec: `createNode` — fails when the document is Sealed or
when the identity collides within the same parent scope; otherwise attaches the
new node to the currently open scope. -/
def createNode (i lbl : String) (icon : Option String) (s : BuilderState) :
    BuilderState × Option Err :=
  if s.sealedDoc then (s, some .SealedDocument)
  else if i ∈ currentScopeIds s then (s, some .DuplicateIdentity)
  else (attachEntity (.node i lbl icon) s, none)

/-- Modelled from the spec: `createEdge` — fails when the document is Sealed or
when either endpoint references an identity not yet created anywhere in the
document; otherwise appends the edge to the edge list. -/
def createEdge (src tgt : String) (a : EdgeAttr) (s : BuilderState) :
    BuilderState × Option Err :=
  if s.sealedDoc then (s, some .SealedDocument)
  else if src ∈ allNodeIds s ∧ tgt ∈ allNodeIds s then
    ({ s with edges := s.edges ++ [⟨src, tgt, a⟩] }, none)
  else (s, some .UnknownEndpoint)

/-- Modelled from the spec: a fan-out edge (one endpoint is a set of nodes, as
in the source's `[oauth_lambda, auth_lambda, main_lambda] >> logs`): each node
of the set is connected to the target in turn, all sharing the attributes. -/
def createEdgeFan : List String → String → EdgeAttr → BuilderState →
    BuilderState × Option Err
  | [], _, _, s => (s, none)
  | x :: xs, tgt, a, s =>
    match createEdge x tgt a s with
    | (s1, none) => createEdgeFan xs tgt a s1
    | (s1, some e) => (s1, some e)

/-- The block-structured builder call language: node creation, a cluster scope
enclosing its body, single edges, and fan-out edges. -/
inductive Op where
  | node (i lbl : String) (icon : Option String)
  | cluster (i : String) (body : List Op)
  | edge (src tgt : String) (a : EdgeAttr)
  | fanEdge (srcs : List String) (tgt : String) (a : EdgeAttr)
deriving Repr

mutual

/-- Run one builder call. A cluster op pushes a fresh scope frame, runs its
body, and pops back to the parent scope on exit — also when an error was
raised mid-scope (scoped acquisition / RAII semantics), in which case the
error propagates after the pop. -/
def runOp : Op → BuilderState → BuilderState × Option Err
  | .node i lbl icon, s => createNode i lbl icon s
  | .edge src tgt a, s => createEdge src tgt a s
  | .fanEdge srcs tgt a, s => createEdgeFan srcs tgt a s
  | .cluster i body, s =>
    if s.sealedDoc then (s, some .SealedDocument)
    else if i ∈ currentScopeIds s then (s, some .DuplicateIdentity)
    else
      match runOps body (pushFrame i s) with
      | (s1, e) => (popFrame s1, e)

/-- Run a sequence of builder calls, stopping at the first error (construction
aborts on construction-time errors, unwinding open scopes). -/
def runOps : List Op → BuilderState → BuilderState × Option Err
  | [], s => (s, none)
  | o :: rest, s =>
    match runOp o s with
    | (s1, none) => runOps rest s1
    | (s1, some e) => (s1, some e)

end

/-- Seal the document: `Building → Sealed`, after which no further mutation is
accepted. -/
def sealDoc (s : BuilderState) : BuilderState := { s with sealedDoc := true }

/-- Modelled from the spec: the Diagram Document root container — title,
global layout direction, the top-level entities and the full edge list. -/
structure Document where
  title : String
  direction : String
  root : List Entity
  edgeList : List EdgeDecl
deriving Repr

/-- Close a finished builder run into a sealed Diagram Document. -/
def buildDiagram (title dir : String) (ops : List Op) : Document × Option Err :=
  (⟨title, dir, (sealDoc (runOps ops initState).1).root,
    (sealDoc (runOps ops initState).1).edges⟩,
   (runOps ops initState).2)

/-- Surround a string with double quotes for the textual graph description. -/
def quoted (x : String) : String := "\"" ++ x ++ "\""

/-- The description line for one node statement: identity plus its attributes
(label, and the icon reference when present) as key-value pairs. -/
def nodeLine (i lbl : String) (icon : Option String) : String :=
  match icon with
  | none => "  " ++ quoted i ++ " [label=" ++ quoted lbl ++ "];"
  | some p =>
    "  " ++ quoted i ++ " [label=" ++ quoted lbl ++ ", image=" ++ quoted p ++ "];"

/-- The description line for one edge statement: endpoints plus the attribute
key-value pairs that are present. -/
def edgeLine (ed : EdgeDecl) : String :=
  let a1 := match ed.attr.label with
    | none => ""
    | some l => " label=" ++ quoted l
  let a2 := match ed.attr.color with
    | none => ""
    | some c => " color=" ++ quoted c
  let a3 := match ed.attr.style with
    | none => ""
    | some st => " style=" ++ quoted st
  "  " ++ quoted ed.src ++ " -> " ++ quoted ed.tgt ++ " [" ++ a1 ++ a2 ++ a3 ++ "];"

mutual

/-- Declaration-order description lines of one entity: a node statement, or a
nested sub-graph block for a cluster. -/
def entityLines : Entity → List String
  | .node i lbl icon => [nodeLine i lbl icon]
  | .cluster i cs =>
    ("  subgraph cluster_" ++ quoted i ++ " \x7b") :: entitiesLines cs ++ ["  \x7d"]

/-- Declaration-order description lines of a list of entities. -/
def entitiesLines : List Entity → List String
  | [] => []
  | e :: es => entityLines e ++ entitiesLines es

end

mutual

/-- The Layout Adapter's emitter for one entity, written in accumulator style:
appends the entity's description lines to the lines already emitted. -/
def emitEntity : Entity → List String → List String
  | .node i lbl icon, acc => acc ++ [nodeLine i lbl icon]
  | .cluster i cs, acc =>
    emitEntities cs (acc ++ ["  subgraph cluster_" ++ quoted i ++ " \x7b"]) ++ ["  \x7d"]

/-- The Layout Adapter's emitter over a list of entities, front to back. -/
def emitEntities : List Entity → List String → List String
  | [], acc => acc
  | e :: es, acc => emitEntities es (emitEntity e acc)

end

/-- The Layout Adapter's emitter over the edge list, front to back. -/
def emitEdges : List EdgeDecl → List String → List String
  | [], acc => acc
  | ed :: eds, acc => emitEdges eds (acc ++ [edgeLine ed])

/-- The two header lines of the textual graph description: the digraph
opening with the document title, and the global direction attribute. -/
def headerLines (d : Document) : List String :=
  ["digraph " ++ quoted d.title ++ " \x7b", "  rankdir=" ++ d.direction ++ ";"]

/-- All lines of the textual graph description emitted for a document:
header, then the entity statements, then the edge statements, then the
closing brace. -/
def docLines (d : Document) : List String :=
  emitEdges d.edgeList (emitEntities d.root (headerLines d)) ++ ["\x7d"]

/-- The Layout Adapter's full serialization of a Diagram Document to the
layout engine's textual graph description. -/
def serializeDoc (d : Document) : String :=
  String.intercalate "\n" (docLines d)

/-- Modelled from the spec: a Rendering Request — requested output formats,
destination filename stem, and the auto-open flag (the source's `show`
keyword argument). -/
structure RenderRequest where
  outformat : List String
  filename : String
  «show» : Bool
deriving Repr, DecidableEq

/-- A rendering request built without setting the auto-open flag: the flag
must default to "do not auto-open". -/
def mkRenderRequest (fmts : List String) (stem : String) : RenderRequest :=
  ⟨fmts, stem, false⟩

/-- The artifact filename for one rendering pass. -/
def artifactName (stem fmt : String) : String := stem ++ "." ++ fmt

/-- The result of rendering one Diagram Document: the produced artifacts
(filename paired with the engine input they were rendered from) and whether
the result was auto-opened. Nothing else is persisted. -/
structure RenderResult where
  artifacts : List (String × String)
  opened : Bool
deriving Repr, DecidableEq

/-- One rendering pass per requested format, producing the artifact
`<destination-stem>.<format>` from the serialized description. -/
def renderPasses : List String → String → String → List (String × String)
  | [], _, _ => []
  | f :: fs, stem, desc => (artifactName stem f, desc) :: renderPasses fs stem desc

/-- Modelled from the spec: the Rendering Pipeline — serialize the document
once, run one rendering pass per requested format, and auto-open only when
the request's flag says so. -/
def renderDoc (r : RenderRequest) (d : Document) : RenderResult :=
  ⟨renderPasses r.outformat r.filename (serializeDoc d), r.«show»⟩

/-- Edge attributes with a label and a color, as in `Edge(label=..., color=...)`. -/
def eAttrLC (l c : String) : EdgeAttr := ⟨some l, some c, none⟩

/-- Edge attributes with a label, a color and a style, as in
`Edge(label=..., color=..., style=...)`. -/
def eAttrLCS (l c st : String) : EdgeAttr := ⟨some l, some c, some st⟩

/-- The icon reference used for the Amazon Q Business custom nodes. -/
def qIcon : String := "../assets/amazon-q-icon_gradient_lockup.png"

/-- The icon reference used for the Shopify custom nodes. -/
def shopifyIcon : String := "../assets/shopify.png"

/-- The builder calls of the first source diagram (complete architecture),
transcribed from the script: nodes named after the script's variables, labels
and edge attributes verbatim. -/
def diagram1Ops : List Op :=
  [Op.node "amazon_q" "Amazon Q Business\nClient" (some qIcon),
   Op.node "shopify" "Shopify Admin API\n(External Service)" (some shopifyIcon),
   Op.cluster "AWS Cloud Infrastructure"
     [Op.node "api" "API Gateway\n(REST API)\n- /oauth/authorize\n- /oauth/token\n- /products\n- /orders\n- /customers\n- /inventory\n- /locations" none,
      Op.cluster "Authentication & Authorization Layer"
        [Op.node "oauth_lambda" "OAuth Handler\nLambda\n(/oauth/*)" none,
         Op.node "authorizer_lambda" "Token Authorizer\nLambda\n(Bearer Token\nValidation)" none,
         Op.node "auth_secrets" "OAuth Credentials\nSecret\n(client_id, client_secret,\nredirect_uri)" none,
         Op.node "auth_codes_table" "OAuth Authorization\nCodes Table\n(TTL enabled)" none],
      Op.cluster "Core Application Layer"
        [Op.node "main_lambda" "Shopify Plugin\nHandler Lambda\n(All API Operations)" none,
         Op.node "shopify_secrets" "Shopify API\nCredentials Secret\n(shop_name, access_token)" none],
      Op.cluster "Monitoring & Logging"
        [Op.node "logs" "CloudWatch Logs\n(All Lambda logs)" none]],
   Op.edge "amazon_q" "api" (eAttrLCS "1. OAuth Authorization\nRequest" "blue" "bold"),
   Op.edge "api" "oauth_lambda" (eAttrLC "OAuth Endpoints" "blue"),
   Op.edge "oauth_lambda" "auth_secrets" (eAttrLC "Read OAuth\nCredentials" "blue"),
   Op.edge "oauth_lambda" "auth_codes_table" (eAttrLC "Store Auth Code\n(with TTL)" "blue"),
   Op.edge "oauth_lambda" "api" (eAttrLCS "2. Authorization Code\n& Access Token" "blue" "bold"),
   Op.edge "api" "amazon_q" (eAttrLCS "3. OAuth Response" "blue" "bold"),
   Op.edge "amazon_q" "api" (eAttrLCS "4. API Request\n(Bearer Token)" "green" "bold"),
   Op.edge "api" "authorizer_lambda" (eAttrLC "5. Token Validation" "green"),
   Op.edge "authorizer_lambda" "auth_secrets" (eAttrLC "Validate Token\nFormat & Credentials" "green"),
   Op.edge "authorizer_lambda" "api" (eAttrLC "6. Allow/Deny\nPolicy" "green"),
   Op.edge "api" "main_lambda" (eAttrLCS "7. Authorized Request\n(if token valid)" "orange" "bold"),
   Op.edge "main_lambda" "shopify_secrets" (eAttrLC "8. Fetch Shopify\nCredentials" "orange"),
   Op.edge "main_lambda" "shopify" (eAttrLCS "9. Shopify API\nCalls (REST)" "orange" "bold"),
   Op.edge "main_lambda" "logs" (eAttrLCS "Application Logs" "gray" "dashed"),
   Op.edge "oauth_lambda" "logs" (eAttrLCS "OAuth Logs" "gray" "dashed"),
   Op.edge "authorizer_lambda" "logs" (eAttrLCS "Auth Logs" "gray" "dashed")]

/-- The builder calls of the second source diagram (OAuth flow sequence),
transcribed from the script. -/
def diagram2Ops : List Op :=
  [Op.cluster "Client Application"
     [Op.node "qbusiness" "Amazon Q Business" (some qIcon)],
   Op.cluster "Authorization Server (AWS API Gateway + Lambda)"
     [Op.node "auth_endpoint" "/oauth/authorize\nEndpoint" none,
      Op.node "token_endpoint" "/oauth/token\nEndpoint" none,
      Op.node "oauth_handler" "OAuth Handler\nLambda" none,
      Op.node "auth_secret" "OAuth Credentials\n(client_id, client_secret)" none,
      Op.node "auth_codes_db" "Authorization Codes\nTable (DynamoDB)" none],
   Op.cluster "Resource Server (AWS)"
     [Op.node "api_gateway" "Protected API\nEndpoints" none,
      Op.node "authorizer" "Token Authorizer\nLambda" none,
      Op.node "resource_lambda" "Shopify Plugin\nHandler Lambda" none],
   Op.edge "qbusiness" "auth_endpoint" (eAttrLC "1. Authorization Request\n(client_id, redirect_uri, state)" "blue"),
   Op.edge "auth_endpoint" "oauth_handler" noAttr,
   Op.edge "oauth_handler" "auth_secret" noAttr,
   Op.edge "oauth_handler" "auth_codes_db" (eAttrLC "Generate & Store\nAuth Code" "blue"),
   Op.edge "oauth_handler" "qbusiness" (eAttrLC "2. Authorization Code\n(via redirect or direct)" "blue"),
   Op.edge "qbusiness" "token_endpoint" (eAttrLC "3. Token Request\n(code, client_id, client_secret)" "green"),
   Op.edge "token_endpoint" "oauth_handler" noAttr,
   Op.edge "oauth_handler" "auth_codes_db" (eAttrLC "Validate Auth Code" "green"),
   Op.edge "oauth_handler" "auth_secret" noAttr,
   Op.edge "oauth_handler" "qbusiness" (eAttrLC "4. Access Token\n(Bearer token)" "green"),
   Op.edge "qbusiness" "api_gateway" (eAttrLC "5. API Request\n(Bearer token)" "orange"),
   Op.edge "api_gateway" "authorizer" noAttr,
   Op.edge "authorizer" "auth_secret" noAttr,
   Op.edge "authorizer" "api_gateway" (eAttrLC "Allow/Deny Policy" "orange"),
   Op.edge "api_gateway" "resource_lambda" (eAttrLC "6. Protected Resource\nAccess" "orange")]

/-- The builder calls of the third source diagram (API operations overview),
transcribed from the script; its last declaration is the fan-out edge
`[oauth_lambda, auth_lambda, main_lambda] >> logs`. -/
def diagram3Ops : List Op :=
  [Op.cluster "Amazon Q Business Integration"
     [Op.node "qbusiness_client" "Amazon Q Business" (some qIcon)],
   Op.cluster "AWS API Gateway Endpoints"
     [Op.cluster "Authentication Endpoints"
        [Op.node "oauth_auth" "/oauth/authorize" none,
         Op.node "oauth_token" "/oauth/token" none],
      Op.cluster "Shopify Data Endpoints"
        [Op.node "products_api" "/products\n/products/\x7bid\x7d\n(GET, POST, PUT)" none,
         Op.node "orders_api" "/orders\n/orders/\x7bid\x7d\n(GET)" none,
         Op.node "customers_api" "/customers\n/customers/\x7bid\x7d\n(GET)" none,
         Op.node "inventory_api" "/inventory\n/inventory/\x7bid\x7d\n(GET, PUT)" none,
         Op.node "locations_api" "/locations\n/locations/\x7bid\x7d\n(GET)" none]],
   Op.cluster "AWS Lambda Functions"
     [Op.node "oauth_lambda" "OAuth Handler" none,
      Op.node "auth_lambda" "Token Authorizer" none,
      Op.node "main_lambda" "Shopify Plugin Handler" none],
   Op.cluster "External Shopify API"
     [Op.node "shopify_api" "Shopify Admin API\n- Products API\n- Orders API\n- Customers API\n- Inventory API\n- Locations API" (some shopifyIcon)],
   Op.cluster "AWS Storage & Security"
     [Op.node "secrets" "Credentials\nSecrets" none,
      Op.node "dynamo" "Auth Codes\nTable" none,
      Op.node "logs" "CloudWatch\nLogs" none],
   Op.edge "qbusiness_client" "oauth_auth" (eAttrLC "OAuth Flow" "blue"),
   Op.edge "qbusiness_client" "oauth_token" (eAttrLC "Token Exchange" "blue"),
   Op.edge "qbusiness_client" "products_api" (eAttrLC "Product Queries" "green"),
   Op.edge "qbusiness_client" "orders_api" (eAttrLC "Order Queries" "green"),
   Op.edge "qbusiness_client" "customers_api" (eAttrLC "Customer Queries" "green"),
   Op.edge "qbusiness_client" "inventory_api" (eAttrLC "Inventory Management" "green"),
   Op.edge "qbusiness_client" "locations_api" (eAttrLC "Location Queries" "green"),
   Op.edge "oauth_auth" "oauth_lambda" noAttr,
   Op.edge "oauth_token" "oauth_lambda" noAttr,
   Op.edge "products_api" "main_lambda" (eAttrLC "Authorized" "orange"),
   Op.edge "orders_api" "main_lambda" (eAttrLC "Authorized" "orange"),
   Op.edge "customers_api" "main_lambda" (eAttrLC "Authorized" "orange"),
   Op.edge "inventory_api" "main_lambda" (eAttrLC "Authorized" "orange"),
   Op.edge "locations_api" "main_lambda" (eAttrLC "Authorized" "orange"),
   Op.edge "main_lambda" "shopify_api" (eAttrLC "REST API Calls" "red"),
   Op.edge "oauth_lambda" "dynamo" noAttr,
   Op.edge "oauth_lambda" "secrets" noAttr,
   Op.edge "auth_lambda" "secrets" noAttr,
   Op.edge "main_lambda" "secrets" noAttr,
   Op.fanEdge ["oauth_lambda", "auth_lambda", "main_lambda"] "logs" noAttr]

/-- The first source diagram's title, from `Diagram(...)` line 26. -/
def diagram1Title : String :=
  "Amazon Q Business Shopify Plugin - Complete Architecture"

/-- The second source diagram's title, from `Diagram(...)` line 90. -/
def diagram2Title : String :=
  "OAuth 2.0 Authorization Code Flow - Detailed Sequence"

/-- The third source diagram's title, from `Diagram(...)` line 133. -/
def diagram3Title : String := "Shopify Plugin API Operations Overview"

/-- The first source diagram's rendering request: `show=False`,
`filename="shopify-plugin-complete-architecture"`, `outformat=["png"]`. -/
def diagram1Request : RenderRequest :=
  ⟨["png"], "shopify-plugin-complete-architecture", false⟩

/-- The second source diagram's rendering request: `show=False`,
`filename="oauth-flow-detailed-sequence"`, `outformat=["png"]`. -/
def diagram2Request : RenderRequest :=
  ⟨["png"], "oauth-flow-detailed-sequence", false⟩

/-- The third source diagram's rendering request: `show=False`,
`filename="shopify-api-operations"`, `outformat=["png"]`. -/
def diagram3Request : RenderRequest :=
  ⟨["png"], "shopify-api-operations", false⟩

/-- The module body's top-level execution builds the three Diagram Documents
in source order. -/
def moduleBuilds : List (Document × Option Err) :=
  [buildDiagram diagram1Title "LR" diagram1Ops,
   buildDiagram diagram2Title "TB" diagram2Ops,
   buildDiagram diagram3Title "TB" diagram3Ops]

/-- The module body's top-level execution renders each built document with its
rendering request, still before the main guard runs. -/
def moduleRenders : List RenderResult :=
  [renderDoc diagram1Request (buildDiagram diagram1Title "LR" diagram1Ops).1,
   renderDoc diagram2Request (buildDiagram diagram2Title "TB" diagram2Ops).1,
   renderDoc diagram3Request (buildDiagram diagram3Title "TB" diagram3Ops).1]

/-- The `if __name__ == "__main__"` block of the script: it performs no
construction or rendering — whatever rendering outcomes the top-level
execution produced, it prints the same fixed four-line message naming the
three png artifacts. -/
def mainGuardLines (_outcomes : List RenderResult) : List String :=
  ["Architecture diagrams generated successfully:",
   "- shopify-plugin-complete-architecture.png",
   "- oauth-flow-detailed-sequence.png",
   "- shopify-api-operations.png"]

/-- One observable step of executing the module as a script. -/
inductive ModuleEvent where
  | buildRender (title : String) (r : RenderRequest)
  | printLine (l : String)
deriving Repr, DecidableEq

/-- Executing the module in order: the three diagrams are built and rendered
during top-level execution of the module body, then the main guard prints its
message. -/
def moduleEvents : List ModuleEvent :=
  [ModuleEvent.buildRender diagram1Title diagram1Request,
   ModuleEvent.buildRender diagram2Title diagram2Request,
   ModuleEvent.buildRender diagram3Title diagram3Request] ++
    (mainGuardLines moduleRenders).map ModuleEvent.printLine

/-- A small document state owning three top-level nodes, used to exercise the
fan-out edge declaration on concrete input. -/
def fanState : BuilderState :=
  ⟨[Entity.node "a" "A" none, Entity.node "b" "B" none,
    Entity.node "t" "T" none], [], [], false⟩

mutual

/-- The number of entity occurrences in one entity (itself plus everything it
transitively owns). -/
def entityCount : Entity → Nat
  | .node _ _ _ => 1
  | .cluster _ cs => 1 + entitiesCount cs

/-- The number of entity occurrences in a list of entities. -/
def entitiesCount : List Entity → Nat
  | [] => 0
  | e :: es => entityCount e + entitiesCount es

end

/-- The number of entity occurrences an open scope frame accounts for: the
open cluster itself plus its finalized children. -/
def frameCount (f : Frame) : Nat := 1 + entitiesCount f.done

/-- The number of entity occurrences in a builder state: finalized root
entities plus every open scope frame. -/
def stateCount (s : BuilderState) : Nat :=
  entitiesCount s.root + (s.stack.map frameCount).sum

mutual

/-- How many entities one builder call creates on success. -/
def opCreates : Op → Nat
  | .node _ _ _ => 1
  | .cluster _ body => 1 + opsCreates body
  | .edge _ _ _ => 0
  | .fanEdge _ _ _ => 0

/-- How many entities a sequence of builder calls creates on success. -/
def opsCreates : List Op → Nat
  | [] => 0
  | o :: os => opCreates o + opsCreates os

end

mutual

/-- `containedIn x e`: entity occurrence `x` sits strictly inside `e`
(directly or transitively owned by it). -/
def containedIn (x : Entity) : Entity → Prop
  | .node _ _ _ => False
  | .cluster _ cs => containedInList x cs

/-- `containedInList x es`: `x` is one of the entities of `es`, or sits
strictly inside one of them. -/
def containedInList (x : Entity) : List Entity → Prop
  | [] => False
  | e :: es => x = e ∨ containedIn x e ∨ containedInList x es

end

theorem entitiesCount_append (l1 l2 : List Entity) :
    entitiesCount (l1 ++ l2) = entitiesCount l1 + entitiesCount l2 := by
  induction l1 with
  | nil => simp [entitiesCount]
  | cons e es ih => simp [entitiesCount, ih]; omega

theorem attachEntity_root_stack (e : Entity) (s : BuilderState) :
    (attachEntity e s).stack.map Frame.fid = s.stack.map Frame.fid ∧
    (attachEntity e s).stack.tail = s.stack.tail ∧
    (attachEntity e s).sealedDoc = s.sealedDoc ∧
    (attachEntity e s).edges = s.edges := by
  unfold attachEntity
  cases h : s.stack with
  | nil => simp
  | cons f rest => simp [h]

theorem attachEntity_count (e : Entity) (s : BuilderState) :
    stateCount (attachEntity e s) = stateCount s + entityCount e := by
  unfold attachEntity stateCount
  cases h : s.stack with
  | nil => simp [entitiesCount_append, entitiesCount, entityCount]
  | cons f rest =>
    simp [h, frameCount, entitiesCount_append, entitiesCount]
    omega

theorem pushFrame_count (i : String) (s : BuilderState) :
    stateCount (pushFrame i s) = stateCount s + 1 := by
  simp [pushFrame, stateCount, frameCount, entitiesCount]
  omega

theorem popFrame_count (s : BuilderState) (f : Frame) (rest : List Frame)
    (h : s.stack = f :: rest) :
    stateCount (popFrame s) = stateCount s := by
  unfold popFrame
  rw [h]
  rw [attachEntity_count]
  simp [stateCount, h, frameCount, entityCount, entitiesCount]
  omega

mutual

theorem emitEntity_eq (e : Entity) (acc : List String) :
    emitEntity e acc = acc ++ entityLines e := by
  cases e with
  | node i lbl icon => simp [emitEntity, entityLines]
  | cluster i cs =>
    rw [emitEntity, entityLines, emitEntities_eq]
    simp

theorem emitEntities_eq (es : List Entity) (acc : List String) :
    emitEntities es acc = acc ++ entitiesLines es := by
  cases es with
  | nil => simp [emitEntities, entitiesLines]
  | cons e rest =>
    rw [emitEntities, entitiesLines, emitEntities_eq, emitEntity_eq]
    simp

end

theorem emitEdges_eq (eds : List EdgeDecl) (acc : List String) :
    emitEdges eds acc = acc ++ eds.map edgeLine := by
  induction eds generalizing acc with
  | nil => simp [emitEdges]
  | cons ed rest ih => rw [emitEdges, ih]; simp

theorem docLines_eq (d : Document) :
    docLines d =
      headerLines d ++ entitiesLines d.root ++ d.edgeList.map edgeLine ++
        ["\x7d"] := by
  rw [docLines, emitEdges_eq, emitEntities_eq]

mutual

theorem count_lt_of_containedIn (x e : Entity) (h : containedIn x e) :
    entityCount x < entityCount e := by
  cases e with
  | node i lbl icon => exact absurd h (by simp [containedIn])
  | cluster i cs =>
    have hx : entityCount x ≤ entitiesCount cs :=
      count_le_of_containedInList x cs (by simpa [containedIn] using h)
    have hc : entityCount (Entity.cluster i cs) = 1 + entitiesCount cs := by
      simp [entityCount]
    omega

theorem count_le_of_containedInList (x : Entity) (es : List Entity)
    (h : containedInList x es) : entityCount x ≤ entitiesCount es := by
  cases es with
  | nil => exact absurd h (by simp [containedInList])
  | cons e rest =>
    have hc : entitiesCount (e :: rest) = entityCount e + entitiesCount rest := by
      simp [entitiesCount]
    rcases (by simpa [containedInList] using h :
        x = e ∨ containedIn x e ∨ containedInList x rest) with h1 | h2 | h3
    · subst h1
      omega
    · have := count_lt_of_containedIn x e h2
      omega
    · have := count_le_of_containedInList x rest h3
      omega

end

theorem not_containedIn_self (e : Entity) : ¬ containedIn e e := fun h =>
  absurd (count_lt_of_containedIn e e h) (lt_irrefl _)

theorem createEdge_state (src tgt : String) (a : EdgeAttr) (s : BuilderState) :
    (createEdge src tgt a s).1.root = s.root ∧
    (createEdge src tgt a s).1.stack = s.stack ∧
    (createEdge src tgt a s).1.sealedDoc = s.sealedDoc := by
  unfold createEdge
  split_ifs <;> simp

theorem createEdgeFan_state (srcs : List String) (tgt : String) (a : EdgeAttr)
    (s : BuilderState) :
    (createEdgeFan srcs tgt a s).1.root = s.root ∧
    (createEdgeFan srcs tgt a s).1.stack = s.stack ∧
    (createEdgeFan srcs tgt a s).1.sealedDoc = s.sealedDoc := by
  induction srcs generalizing s with
  | nil => simp [createEdgeFan]
  | cons x xs ih =>
    rw [createEdgeFan]
    have h1 := createEdge_state x tgt a s
    cases h : createEdge x tgt a s with
    | mk s1 e =>
      rw [h] at h1
      cases e with
      | none =>
        have h2 := ih s1
        simp only [] at h1 ⊢
        exact ⟨by rw [h2.1, h1.1], by rw [h2.2.1, h1.2.1], by rw [h2.2.2, h1.2.2]⟩
      | some err => simpa using h1

theorem stateCount_eq_of (s t : BuilderState) (hr : s.root = t.root)
    (hs : s.stack = t.stack) : stateCount s = stateCount t := by
  simp [stateCount, hr, hs]

mutual

theorem runOp_shape (o : Op) (s : BuilderState) :
    (runOp o s).1.stack.map Frame.fid = s.stack.map Frame.fid ∧
    (runOp o s).1.stack.tail = s.stack.tail ∧
    (runOp o s).1.sealedDoc = s.sealedDoc := by
  cases o with
  | node i lbl icon =>
    simp only [runOp]
    unfold createNode
    split_ifs with h1 h2
    · simp
    · simp
    · have h3 := attachEntity_root_stack (.node i lbl icon) s
      exact ⟨h3.1, h3.2.1, h3.2.2.1⟩
  | edge src tgt a =>
    simp only [runOp]
    have h3 := createEdge_state src tgt a s
    exact ⟨by rw [h3.2.1], by rw [h3.2.1], h3.2.2⟩
  | fanEdge srcs tgt a =>
    simp only [runOp]
    have h3 := createEdgeFan_state srcs tgt a s
    exact ⟨by rw [h3.2.1], by rw [h3.2.1], h3.2.2⟩
  | cluster i body =>
    simp only [runOp]
    split_ifs with h1 h2
    · simp
    · simp
    · have hb := runOps_shape body (pushFrame i s)
      cases h : runOps body (pushFrame i s) with
      | mk s1 e =>
        rw [h] at hb
        simp only [pushFrame] at hb
        cases hs : s1.stack with
        | nil => rw [hs] at hb; simp at hb
        | cons f r =>
          rw [hs] at hb
          have hr : r = s.stack := by simpa using hb.2.1
          have hsl : s1.sealedDoc = s.sealedDoc := hb.2.2
          subst hr
          have h4 := attachEntity_root_stack (.cluster f.fid f.done)
            { s1 with stack := s.stack }
          simp only [popFrame, hs]
          refine ⟨by simpa using h4.1, by simpa using h4.2.1, by simpa [hsl] using h4.2.2.1⟩

theorem runOps_shape (ops : List Op) (s : BuilderState) :
    (runOps ops s).1.stack.map Frame.fid = s.stack.map Frame.fid ∧
    (runOps ops s).1.stack.tail = s.stack.tail ∧
    (runOps ops s).1.sealedDoc = s.sealedDoc := by
  cases ops with
  | nil => simp [runOps]
  | cons o rest =>
    rw [runOps]
    have h1 := runOp_shape o s
    cases h : runOp o s with
    | mk s1 e =>
      rw [h] at h1
      cases e with
      | none =>
        have h2 := runOps_shape rest s1
        exact ⟨by rw [h2.1, h1.1], by rw [h2.2.1, h1.2.1], by rw [h2.2.2, h1.2.2]⟩
      | some err => exact h1

end

mutual

theorem runOp_count (o : Op) (s : BuilderState) (h : (runOp o s).2 = none) :
    stateCount (runOp o s).1 = stateCount s + opCreates o := by
  cases o with
  | node i lbl icon =>
    revert h
    simp only [runOp]
    unfold createNode
    split_ifs <;> intro h
    · simp at h
    · simp at h
    · simp [attachEntity_count, opCreates, entityCount]
  | edge src tgt a =>
    simp only [runOp, opCreates, Nat.add_zero]
    have h3 := createEdge_state src tgt a s
    exact stateCount_eq_of _ _ h3.1 h3.2.1
  | fanEdge srcs tgt a =>
    simp only [runOp, opCreates, Nat.add_zero]
    have h3 := createEdgeFan_state srcs tgt a s
    exact stateCount_eq_of _ _ h3.1 h3.2.1
  | cluster i body =>
    revert h
    simp only [runOp]
    split_ifs with h1 h2
    · intro h; simp at h
    · intro h; simp at h
    · have hb := runOps_shape body (pushFrame i s)
      cases hrun : runOps body (pushFrame i s) with
      | mk s1 e =>
        intro h
        have he : e = none := by simpa using h
        subst he
        have hc := runOps_count body (pushFrame i s) (by rw [hrun])
        rw [hrun] at hc hb
        simp only [pushFrame] at hb
        cases hs : s1.stack with
        | nil => rw [hs] at hb; simp at hb
        | cons f r =>
          have hpop := popFrame_count s1 f r hs
          simp only []
          rw [hpop, hc, pushFrame_count]
          simp [opCreates]
          omega

theorem runOps_count (ops : List Op) (s : BuilderState)
    (h : (runOps ops s).2 = none) :
    stateCount (runOps ops s).1 = stateCount s + opsCreates ops := by
  cases ops with
  | nil => simp [runOps, opsCreates]
  | cons o rest =>
    revert h
    rw [runOps]
    cases hop : runOp o s with
    | mk s1 e =>
      cases e with
      | none =>
        intro h
        have h1 := runOp_count o s (by rw [hop])
        have h2 := runOps_count rest s1 h
        rw [hop] at h1
        rw [h2, h1]
        simp [opsCreates]
        omega
      | some err => intro h; simp at h

end

theorem createNode_ok (i lbl : String) (ic : Option String)
    (s s' : BuilderState) (h : createNode i lbl ic s = (s', none)) :
    s.sealedDoc = false ∧ i ∉ currentScopeIds s ∧
      s' = attachEntity (.node i lbl ic) s := by
  revert h
  unfold createNode
  split_ifs with h1 h2 <;> intro h
  · simp at h
  · simp at h
  · exact ⟨by simpa using h1, h2, by simpa using h.symm⟩

set_option maxHeartbeats 3200000 in
theorem diagram1_builds : (runOps diagram1Ops initState).2 = none := by
  simp [runOps, runOp, createNode, createEdge, createEdgeFan, attachEntity,
    pushFrame, popFrame, currentScopeIds, currentScopeEntities, allNodeIds,
    entityNodeIds, entitiesNodeIds, initState, diagram1Ops, eAttrLC, eAttrLCS,
    qIcon, shopifyIcon, Entity.entityId]

set_option maxHeartbeats 3200000 in
theorem diagram2_builds : (runOps diagram2Ops initState).2 = none := by
  simp [runOps, runOp, createNode, createEdge, createEdgeFan, attachEntity,
    pushFrame, popFrame, currentScopeIds, currentScopeEntities, allNodeIds,
    entityNodeIds, entitiesNodeIds, initState, diagram2Ops, eAttrLC, eAttrLCS,
    qIcon, shopifyIcon, Entity.entityId]

set_option maxHeartbeats 3200000 in
theorem diagram3_builds : (runOps diagram3Ops initState).2 = none := by
  simp [runOps, runOp, createNode, createEdge, createEdgeFan, attachEntity,
    pushFrame, popFrame, currentScopeIds, currentScopeEntities, allNodeIds,
    entityNodeIds, entitiesNodeIds, initState, diagram3Ops, eAttrLC, eAttrLCS,
    qIcon, shopifyIcon, Entity.entityId]

theorem currentScopeEntities_attach (e : Entity) (s : BuilderState) :
    currentScopeEntities (attachEntity e s) = currentScopeEntities s ++ [e] := by
  unfold currentScopeEntities attachEntity
  cases h : s.stack with
  | nil => simp
  | cons f rest => simp [h]

theorem currentScopeIds_attach (e : Entity) (s : BuilderState) :
    currentScopeIds (attachEntity e s) =
      currentScopeIds s ++ [e.entityId] := by
  simp [currentScopeIds, currentScopeEntities_attach]

theorem renderPasses_map (fmts : List String) (stem desc : String) :
    renderPasses fmts stem desc =
      fmts.map fun f => (artifactName stem f, desc) := by
  induction fmts with
  | nil => simp [renderPasses]
  | cons f fs ih => simp [renderPasses, ih]

theorem createEdge_ok (src tgt : String) (a : EdgeAttr) (s s1 : BuilderState)
    (h : createEdge src tgt a s = (s1, none)) :
    s1.edges = s.edges ++ [⟨src, tgt, a⟩] := by
  revert h
  unfold createEdge
  split_ifs <;> intro h
  · simp at h
  · have h2 := congrArg (fun p : BuilderState × Option Err => p.1.edges) h
    simpa using h2.symm
  · simp at h

theorem createEdgeFan_edges (srcs : List String) (tgt : String) (a : EdgeAttr)
    (s : BuilderState) (h : (createEdgeFan srcs tgt a s).2 = none) :
    (createEdgeFan srcs tgt a s).1.edges =
      s.edges ++ srcs.map fun x => EdgeDecl.mk x tgt a := by
  induction srcs generalizing s with
  | nil => simp [createEdgeFan]
  | cons x xs ih =>
    revert h
    rw [createEdgeFan]
    cases he : createEdge x tgt a s with
    | mk s1 e =>
      cases e with
      | none =>
        intro h
        rw [ih s1 h, createEdge_ok x tgt a s s1 he]
        simp
      | some err => intro h; simp at h

theorem createEdgeFan_eq_seq (srcs : List String) (tgt : String) (a : EdgeAttr)
    (s : BuilderState) :
    createEdgeFan srcs tgt a s =
      runOps (srcs.map fun x => Op.edge x tgt a) s := by
  induction srcs generalizing s with
  | nil => simp [createEdgeFan, runOps]
  | cons x xs ih =>
    rw [createEdgeFan, List.map_cons, runOps]
    simp only [runOp]
    cases he : createEdge x tgt a s with
    | mk s1 e =>
      cases e with
      | none => exact ih s1
      | some err => rfl

/-- Claim C1: serializing a Diagram Document to the layout-engine description
twice over the same Graph Model yields byte-identical output, and the emitted
description lists the header, then the clusters and nodes, then the edges, in
declaration order — not an arbitrary iteration order. -/
theorem serialize_deterministic_declaration_order (d : Document) :
    serializeDoc d = serializeDoc d ∧
    docLines d =
      headerLines d ++ entitiesLines d.root ++ d.edgeList.map edgeLine ++
        ["\x7d"] :=
  ⟨rfl, docLines_eq d⟩

/-- Claim C2: entering a cluster scope pushes it onto the scope stack; a node
created while a scope is open attaches to the top-of-stack scope; and on scope
exit — including an exit caused by an error raised mid-scope, since the pop
happens before the error propagates — the stack pops back to the parent
scope, so entities declared after the exit attach to the parent. -/
theorem cluster_scope_push_attach_pop (i : String) (body : List Op)
    (s : BuilderState) (hseal : s.sealedDoc = false)
    (hdup : i ∉ currentScopeIds s) :
    (pushFrame i s).stack.map Frame.fid = i :: s.stack.map Frame.fid ∧
    runOp (Op.cluster i body) s =
      (popFrame (runOps body (pushFrame i s)).1,
        (runOps body (pushFrame i s)).2) ∧
    (runOp (Op.cluster i body) s).1.stack.map Frame.fid =
      s.stack.map Frame.fid ∧
    (∀ nid lbl ic t, t.sealedDoc = false → nid ∉ currentScopeIds t →
      currentScopeEntities (createNode nid lbl ic t).1 =
        currentScopeEntities t ++ [Entity.node nid lbl ic]) := by
  refine ⟨by simp [pushFrame], ?_, (runOp_shape (Op.cluster i body) s).1, ?_⟩
  · simp only [runOp]
    rw [if_neg (by simp [hseal]), if_neg hdup]
  · intro nid lbl ic t ht hn
    unfold createNode
    rw [if_neg (by simp [ht]), if_neg hn]
    exact currentScopeEntities_attach _ t

/-- Witness for C2: the empty document, cluster `c`, body declaring node
`x`. -/
theorem cluster_scope_push_attach_pop_witness :
    (initState.sealedDoc = false ∧ "c" ∉ currentScopeIds initState) ∧
    ((pushFrame "c" initState).stack.map Frame.fid =
        "c" :: initState.stack.map Frame.fid ∧
      runOp (Op.cluster "c" [Op.node "x" "X" none]) initState =
        (popFrame (runOps [Op.node "x" "X" none] (pushFrame "c" initState)).1,
          (runOps [Op.node "x" "X" none] (pushFrame "c" initState)).2) ∧
      (runOp (Op.cluster "c" [Op.node "x" "X" none]) initState).1.stack.map
        Frame.fid = initState.stack.map Frame.fid ∧
      (∀ nid lbl ic t, t.sealedDoc = false → nid ∉ currentScopeIds t →
        currentScopeEntities (createNode nid lbl ic t).1 =
          currentScopeEntities t ++ [Entity.node nid lbl ic])) :=
  ⟨⟨rfl, by decide⟩,
    cluster_scope_push_attach_pop "c" [Op.node "x" "X" none] initState rfl
      (by decide)⟩

/-- Claim C3: for every sequence of builder calls respecting the scope rules
(it runs from the empty document without error), the cluster containment
structure of the resulting document is a tree — no entity occurrence contains
itself, directly or transitively — and ownership is exact: every scope is
closed in the result and the root graph owns exactly one entity occurrence
per successful create call, so no entity is orphaned or multiply owned. -/
theorem cluster_tree_acyclic_unique_owner (ops : List Op)
    (h : (runOps ops initState).2 = none) :
    (∀ e : Entity, ¬ containedIn e e) ∧
    (runOps ops initState).1.stack = [] ∧
    entitiesCount (runOps ops initState).1.root = opsCreates ops := by
  have hstack : (runOps ops initState).1.stack = [] := by
    have h1 := (runOps_shape ops initState).1
    simpa [initState] using h1
  refine ⟨not_containedIn_self, hstack, ?_⟩
  have hc := runOps_count ops initState h
  simp only [stateCount] at hc
  rw [hstack] at hc
  simpa [initState, entitiesCount] using hc

/-- Witness for C3: a cluster containing one node, then a top-level node. -/
theorem cluster_tree_acyclic_unique_owner_witness :
    ((runOps [Op.cluster "c" [Op.node "x" "X" none], Op.node "y" "Y" none]
        initState).2 = none) ∧
    ((∀ e : Entity, ¬ containedIn e e) ∧
      (runOps [Op.cluster "c" [Op.node "x" "X" none], Op.node "y" "Y" none]
          initState).1.stack = [] ∧
      entitiesCount (runOps [Op.cluster "c" [Op.node "x" "X" none],
          Op.node "y" "Y" none] initState).1.root =
        opsCreates [Op.cluster "c" [Op.node "x" "X" none],
          Op.node "y" "Y" none]) :=
  ⟨by decide, cluster_tree_acyclic_unique_owner _ (by decide)⟩

/-- Claim C4: once a document is Sealed, every mutation attempt — node
creation, cluster opening, edge creation — fails with the state unchanged,
and the Sealed state is never left: sealing keeps the flag set and no
sequence of builder calls returns the document to Building. -/
theorem sealed_rejects_mutation_irreversibly (s : BuilderState)
    (h : s.sealedDoc = true) :
    (∀ i lbl ic, createNode i lbl ic s = (s, some Err.SealedDocument)) ∧
    (∀ i body, runOp (Op.cluster i body) s = (s, some Err.SealedDocument)) ∧
    (∀ src tgt a, createEdge src tgt a s = (s, some Err.SealedDocument)) ∧
    (sealDoc s).sealedDoc = true ∧
    (∀ ops, (runOps ops s).1.sealedDoc = true) := by
  refine ⟨?_, ?_, ?_, rfl, ?_⟩
  · intro i lbl ic
    unfold createNode
    rw [if_pos h]
  · intro i body
    simp only [runOp]
    rw [if_pos h]
  · intro src tgt a
    unfold createEdge
    rw [if_pos h]
  · intro ops
    rw [(runOps_shape ops s).2.2, h]

/-- Witness for C4: the freshly sealed empty document. -/
theorem sealed_rejects_mutation_irreversibly_witness :
    ((sealDoc initState).sealedDoc = true) ∧
    ((∀ i lbl ic, createNode i lbl ic (sealDoc initState) =
        (sealDoc initState, some Err.SealedDocument)) ∧
      (∀ i body, runOp (Op.cluster i body) (sealDoc initState) =
        (sealDoc initState, some Err.SealedDocument)) ∧
      (∀ src tgt a, createEdge src tgt a (sealDoc initState) =
        (sealDoc initState, some Err.SealedDocument)) ∧
      (sealDoc (sealDoc initState)).sealedDoc = true ∧
      (∀ ops, (runOps ops (sealDoc initState)).1.sealedDoc = true)) :=
  ⟨rfl, sealed_rejects_mutation_irreversibly (sealDoc initState) rfl⟩

/-- Claim C5: after an entity with id `i` was created in a scope, creating a
second entity — node or cluster — with id `i` in that same scope fails with
DuplicateIdentity, while the same id used in two different scopes succeeds
and yields two distinct entity occurrences in the Graph Model. -/
theorem duplicate_identity_same_scope_only (i lbl lbl2 : String)
    (ic ic2 : Option String) (s s1 : BuilderState)
    (h : createNode i lbl ic s = (s1, none)) :
    createNode i lbl2 ic2 s1 = (s1, some Err.DuplicateIdentity) ∧
    (∀ body, runOp (Op.cluster i body) s1 =
      (s1, some Err.DuplicateIdentity)) ∧
    (runOps [Op.cluster "c1" [Op.node "x" "A" none],
        Op.cluster "c2" [Op.node "x" "B" none]] initState).2 = none ∧
    (runOps [Op.cluster "c1" [Op.node "x" "A" none],
        Op.cluster "c2" [Op.node "x" "B" none]] initState).1.root =
      [Entity.cluster "c1" [Entity.node "x" "A" none],
        Entity.cluster "c2" [Entity.node "x" "B" none]] := by
  obtain ⟨hseal, hni, hs1⟩ := createNode_ok i lbl ic s s1 h
  have hsl1 : s1.sealedDoc = false := by
    rw [hs1, (attachEntity_root_stack _ s).2.2.1]
    exact hseal
  have hmem : i ∈ currentScopeIds s1 := by
    rw [hs1, currentScopeIds_attach]
    simp [Entity.entityId]
  refine ⟨?_, ?_, by decide, ?_⟩
  · unfold createNode
    rw [if_neg (by simp [hsl1]), if_pos hmem]
  · intro body
    simp only [runOp]
    rw [if_neg (by simp [hsl1]), if_pos hmem]
  · simp [runOps, runOp, createNode, attachEntity, pushFrame, popFrame,
      currentScopeIds, currentScopeEntities, initState, Entity.entityId]

/-- Witness for C5: node `n` created twice at top level of the empty
document. -/
theorem duplicate_identity_same_scope_only_witness :
    (createNode "n" "N" none initState =
      (attachEntity (Entity.node "n" "N" none) initState, none)) ∧
    (createNode "n" "N2" none
        (attachEntity (Entity.node "n" "N" none) initState) =
      (attachEntity (Entity.node "n" "N" none) initState,
        some Err.DuplicateIdentity) ∧
      (∀ body, runOp (Op.cluster "n" body)
          (attachEntity (Entity.node "n" "N" none) initState) =
        (attachEntity (Entity.node "n" "N" none) initState,
          some Err.DuplicateIdentity)) ∧
      (runOps [Op.cluster "c1" [Op.node "x" "A" none],
          Op.cluster "c2" [Op.node "x" "B" none]] initState).2 = none ∧
      (runOps [Op.cluster "c1" [Op.node "x" "A" none],
          Op.cluster "c2" [Op.node "x" "B" none]] initState).1.root =
        [Entity.cluster "c1" [Entity.node "x" "A" none],
          Entity.cluster "c2" [Entity.node "x" "B" none]]) :=
  ⟨rfl, duplicate_identity_same_scope_only "n" "N" "N2" none none initState
    (attachEntity (Entity.node "n" "N" none) initState) rfl⟩

/-- Claim C6: createEdge fails with UnknownEndpoint whenever either endpoint
references an id not yet created anywhere in the document at the time the
edge is declared — forward references to undeclared entities are rejected, so
both endpoints must be declared before the edge — and succeeds by appending
exactly that edge once both endpoints exist. -/
theorem unknown_endpoint_rejected (src tgt : String) (a : EdgeAttr)
    (s : BuilderState) (hseal : s.sealedDoc = false) :
    ((src ∉ allNodeIds s ∨ tgt ∉ allNodeIds s) →
      createEdge src tgt a s = (s, some Err.UnknownEndpoint)) ∧
    (src ∈ allNodeIds s → tgt ∈ allNodeIds s →
      createEdge src tgt a s =
        ({ s with edges := s.edges ++ [⟨src, tgt, a⟩] }, none)) := by
  constructor
  · intro hor
    unfold createEdge
    rw [if_neg (by simp [hseal]), if_neg (by tauto)]
  · intro h1 h2
    unfold createEdge
    rw [if_neg (by simp [hseal]), if_pos ⟨h1, h2⟩]

/-- Witness for C6: an edge declared on the empty document, where neither
endpoint exists yet. -/
theorem unknown_endpoint_rejected_witness :
    (initState.sealedDoc = false ∧ "a" ∉ allNodeIds initState) ∧
    createEdge "a" "b" noAttr initState =
      (initState, some Err.UnknownEndpoint) :=
  ⟨⟨rfl, by decide⟩,
    (unknown_endpoint_rejected "a" "b" noAttr initState rfl).1
      (Or.inl (by decide))⟩

/-- Claim C7: an edge whose endpoint is a set of N nodes (fan-out) is
equivalent to declaring the N independent edges, one per node of the set, all
sharing the same attributes; and when it succeeds the document gains exactly
those N edges and no extra edge. -/
theorem fanout_equals_independent_edges (srcs : List String) (tgt : String)
    (a : EdgeAttr) (s : BuilderState) :
    runOp (Op.fanEdge srcs tgt a) s =
      runOps (srcs.map fun x => Op.edge x tgt a) s ∧
    ((runOp (Op.fanEdge srcs tgt a) s).2 = none →
      (runOp (Op.fanEdge srcs tgt a) s).1.edges =
        s.edges ++ srcs.map fun x => EdgeDecl.mk x tgt a) := by
  constructor
  · simp only [runOp]
    exact createEdgeFan_eq_seq srcs tgt a s
  · simp only [runOp]
    exact createEdgeFan_edges srcs tgt a s

/-- Witness for C7: fan-out from nodes `a`, `b` to node `t` on a document
owning those three nodes. -/
theorem fanout_equals_independent_edges_witness :
    ((runOp (Op.fanEdge ["a", "b"] "t" noAttr) fanState).2 = none) ∧
    (runOp (Op.fanEdge ["a", "b"] "t" noAttr) fanState).1.edges =
      fanState.edges ++
        [EdgeDecl.mk "a" "t" noAttr, EdgeDecl.mk "b" "t" noAttr] :=
  ⟨by decide,
    (fanout_equals_independent_edges ["a", "b"] "t" noAttr fanState).2
      (by decide)⟩

/-- Claim C8: rendering a Diagram Document produces exactly one artifact per
requested output format, named `<destination-stem>.<format>` — for stem
`demo` and format `png`, the single artifact `demo.png` — and persists
nothing else: the rendering result is exactly those artifacts, each produced
from the document's serialized description. -/
theorem render_one_artifact_per_format (r : RenderRequest) (d : Document) :
    (renderDoc r d).artifacts.map Prod.fst =
      r.outformat.map (fun f => r.filename ++ "." ++ f) ∧
    (renderDoc r d).artifacts.length = r.outformat.length ∧
    renderDoc r d =
      ⟨r.outformat.map fun f => (artifactName r.filename f, serializeDoc d),
        r.«show»⟩ ∧
    (renderDoc (mkRenderRequest ["png"] "demo") d).artifacts.map Prod.fst =
      ["demo.png"] := by
  refine ⟨?_, ?_, ?_, ?_⟩
  · simp [renderDoc, renderPasses_map, artifactName]
  · simp [renderDoc, renderPasses_map]
  · simp [renderDoc, renderPasses_map]
  · simp [renderDoc, mkRenderRequest, renderPasses, artifactName]

/-- Claim C9: the auto-open flag of a Rendering Request defaults to "do not
auto-open" — a request built without setting the flag has it off and
rendering it never auto-opens the artifact — and each of the script's three
requests passes `show=False` explicitly. -/
theorem auto_open_defaults_off (fmts : List String) (stem : String)
    (d : Document) :
    (mkRenderRequest fmts stem).«show» = false ∧
    (renderDoc (mkRenderRequest fmts stem) d).opened = false ∧
    diagram1Request.«show» = false ∧ diagram2Request.«show» = false ∧
    diagram3Request.«show» = false :=
  ⟨rfl, rfl, rfl, rfl, rfl⟩

/-- Claim C10: executing the module builds and renders all three Diagram
Documents during top-level execution of the module body — all three builds
succeed and each render yields its single png artifact — before the main
guard's print events; and the main guard performs no construction or
rendering: it prints the same fixed four-line message naming the three png
artifacts regardless of the rendering outcomes. -/
theorem module_top_level_builds_main_guard_prints :
    moduleBuilds.map Prod.snd = [none, none, none] ∧
    (moduleRenders.map fun rr => rr.artifacts.map Prod.fst) =
      [["shopify-plugin-complete-architecture.png"],
        ["oauth-flow-detailed-sequence.png"],
        ["shopify-api-operations.png"]] ∧
    (∀ outcomes, mainGuardLines outcomes =
      ["Architecture diagrams generated successfully:",
        "- shopify-plugin-complete-architecture.png",
        "- oauth-flow-detailed-sequence.png",
        "- shopify-api-operations.png"]) ∧
    moduleEvents =
      [ModuleEvent.buildRender diagram1Title diagram1Request,
        ModuleEvent.buildRender diagram2Title diagram2Request,
        ModuleEvent.buildRender diagram3Title diagram3Request] ++
        (mainGuardLines moduleRenders).map ModuleEvent.printLine ∧
    (mainGuardLines moduleRenders).drop 1 =
      ([diagram1Request, diagram2Request, diagram3Request].map fun r =>
        "- " ++ artifactName r.filename "png") := by
  refine ⟨?_, ?_, fun _ => rfl, rfl, ?_⟩
  · simp [moduleBuilds, buildDiagram, diagram1_builds, diagram2_builds,
      diagram3_builds]
  · simp [moduleRenders, renderDoc, renderPasses_map, artifactName,
      diagram1Request, diagram2Request, diagram3Request]
  · simp [mainGuardLines, diagram1Request, diagram2Request, diagram3Request,
      artifactName]

end DiagramSpec
